import Mathlib

set_option maxRecDepth 16384
set_option maxHeartbeats 1600000

/-!
Shallow embedding of `src/main.py` (Caesar Cipher Tool), class `CaesarCipher`:
the transform `cipher` (with `encrypt` / `decrypt` wrappers), the
brute-force enumerator `brute_force_decrypt`, and the file helpers
`encrypt_file` / `decrypt_file` together with the path derivation they use
(`os.path.splitext`).

Python strings are embedded as Lean `String` (a list of Unicode scalar
values).  The character classification built-ins `str.isalpha`,
`str.isupper`, `str.islower` consult the Unicode character database; the
model embeds that database as explicit code-point range tables
(`alphaRanges`, `caseTable`), so the predicates agree with Python's
built-ins on every code point.

Raising an exception is modelled as `Except.error`; a Python function that
may raise returns `Except`.
-/

namespace CaesarCipher

/-- Field `self.alphabet_size = 26` set in `CaesarCipher.__init__`. -/
def alphabet_size : Int := 26

/-- Field `self.min_shift = 1` set in `CaesarCipher.__init__`. -/
def min_shift : Int := 1

/-- Field `self.max_shift = 25` set in `CaesarCipher.__init__`. -/
def max_shift : Int := 25

/-- Membership of a code point in a list of inclusive code-point ranges. -/
def memRanges (n : Nat) : List (Nat × Nat) → Bool
  | [] => false
  | (lo, hi) :: rest => (decide (lo ≤ n) && decide (n ≤ hi)) || memRanges n rest

/-- The label of the first range of a labelled range table that contains
the code point, or 0 when none contains it. -/
def caseLookup (n : Nat) : List (Nat × Nat × Nat) → Nat
  | [] => 0
  | (lo, hi, cls) :: rest => if lo ≤ n ∧ n ≤ hi then cls else caseLookup n rest

/-- The maximal ranges of code points, in ascending order, on which
Python's `str.isalpha` is true for a single character (Unicode character
database 14.0.0, general categories Lu, Ll, Lt, Lm, Lo): the
classification consulted by `char.isalpha()` at src/main.py line 56. -/
def alphaRanges : List (Nat × Nat) := [
  (65, 90), (97, 122), (170, 170), (181, 181), (186, 186), (192, 214), (216, 246),
  (248, 705), (710, 721), (736, 740), (748, 748), (750, 750), (880, 884), (886, 887),
  (890, 893), (895, 895), (902, 902), (904, 906), (908, 908), (910, 929), (931, 1013),
  (1015, 1153), (1162, 1327), (1329, 1366), (1369, 1369), (1376, 1416), (1488, 1514), (1519, 1522),
  (1568, 1610), (1646, 1647), (1649, 1747), (1749, 1749), (1765, 1766), (1774, 1775), (1786, 1788),
  (1791, 1791), (1808, 1808), (1810, 1839), (1869, 1957), (1969, 1969), (1994, 2026), (2036, 2037),
  (2042, 2042), (2048, 2069), (2074, 2074), (2084, 2084), (2088, 2088), (2112, 2136), (2144, 2154),
  (2160, 2183), (2185, 2190), (2208, 2249), (2308, 2361), (2365, 2365), (2384, 2384), (2392, 2401),
  (2417, 2432), (2437, 2444), (2447, 2448), (2451, 2472), (2474, 2480), (2482, 2482), (2486, 2489),
  (2493, 2493), (2510, 2510), (2524, 2525), (2527, 2529), (2544, 2545), (2556, 2556), (2565, 2570),
  (2575, 2576), (2579, 2600), (2602, 2608), (2610, 2611), (2613, 2614), (2616, 2617), (2649, 2652),
  (2654, 2654), (2674, 2676), (2693, 2701), (2703, 2705), (2707, 2728), (2730, 2736), (2738, 2739),
  (2741, 2745), (2749, 2749), (2768, 2768), (2784, 2785), (2809, 2809), (2821, 2828), (2831, 2832),
  (2835, 2856), (2858, 2864), (2866, 2867), (2869, 2873), (2877, 2877), (2908, 2909), (2911, 2913),
  (2929, 2929), (2947, 2947), (2949, 2954), (2958, 2960), (2962, 2965), (2969, 2970), (2972, 2972),
  (2974, 2975), (2979, 2980), (2984, 2986), (2990, 3001), (3024, 3024), (3077, 3084), (3086, 3088),
  (3090, 3112), (3114, 3129), (3133, 3133), (3160, 3162), (3165, 3165), (3168, 3169), (3200, 3200),
  (3205, 3212), (3214, 3216), (3218, 3240), (3242, 3251), (3253, 3257), (3261, 3261), (3293, 3294),
  (3296, 3297), (3313, 3314), (3332, 3340), (3342, 3344), (3346, 3386), (3389, 3389), (3406, 3406),
  (3412, 3414), (3423, 3425), (3450, 3455), (3461, 3478), (3482, 3505), (3507, 3515), (3517, 3517),
  (3520, 3526), (3585, 3632), (3634, 3635), (3648, 3654), (3713, 3714), (3716, 3716), (3718, 3722),
  (3724, 3747), (3749, 3749), (3751, 3760), (3762, 3763), (3773, 3773), (3776, 3780), (3782, 3782),
  (3804, 3807), (3840, 3840), (3904, 3911), (3913, 3948), (3976, 3980), (4096, 4138), (4159, 4159),
  (4176, 4181), (4186, 4189), (4193, 4193), (4197, 4198), (4206, 4208), (4213, 4225), (4238, 4238),
  (4256, 4293), (4295, 4295), (4301, 4301), (4304, 4346), (4348, 4680), (4682, 4685), (4688, 4694),
  (4696, 4696), (4698, 4701), (4704, 4744), (4746, 4749), (4752, 4784), (4786, 4789), (4792, 4798),
  (4800, 4800), (4802, 4805), (4808, 4822), (4824, 4880), (4882, 4885), (4888, 4954), (4992, 5007),
  (5024, 5109), (5112, 5117), (5121, 5740), (5743, 5759), (5761, 5786), (5792, 5866), (5873, 5880),
  (5888, 5905), (5919, 5937), (5952, 5969), (5984, 5996), (5998, 6000), (6016, 6067), (6103, 6103),
  (6108, 6108), (6176, 6264), (6272, 6276), (6279, 6312), (6314, 6314), (6320, 6389), (6400, 6430),
  (6480, 6509), (6512, 6516), (6528, 6571), (6576, 6601), (6656, 6678), (6688, 6740), (6823, 6823),
  (6917, 6963), (6981, 6988), (7043, 7072), (7086, 7087), (7098, 7141), (7168, 7203), (7245, 7247),
  (7258, 7293), (7296, 7304), (7312, 7354), (7357, 7359), (7401, 7404), (7406, 7411), (7413, 7414),
  (7418, 7418), (7424, 7615), (7680, 7957), (7960, 7965), (7968, 8005), (8008, 8013), (8016, 8023),
  (8025, 8025), (8027, 8027), (8029, 8029), (8031, 8061), (8064, 8116), (8118, 8124), (8126, 8126),
  (8130, 8132), (8134, 8140), (8144, 8147), (8150, 8155), (8160, 8172), (8178, 8180), (8182, 8188),
  (8305, 8305), (8319, 8319), (8336, 8348), (8450, 8450), (8455, 8455), (8458, 8467), (8469, 8469),
  (8473, 8477), (8484, 8484), (8486, 8486), (8488, 8488), (8490, 8493), (8495, 8505), (8508, 8511),
  (8517, 8521), (8526, 8526), (8579, 8580), (11264, 11492), (11499, 11502), (11506, 11507), (11520, 11557),
  (11559, 11559), (11565, 11565), (11568, 11623), (11631, 11631), (11648, 11670), (11680, 11686), (11688, 11694),
  (11696, 11702), (11704, 11710), (11712, 11718), (11720, 11726), (11728, 11734), (11736, 11742), (11823, 11823),
  (12293, 12294), (12337, 12341), (12347, 12348), (12353, 12438), (12445, 12447), (12449, 12538), (12540, 12543),
  (12549, 12591), (12593, 12686), (12704, 12735), (12784, 12799), (13312, 19903), (19968, 42124), (42192, 42237),
  (42240, 42508), (42512, 42527), (42538, 42539), (42560, 42606), (42623, 42653), (42656, 42725), (42775, 42783),
  (42786, 42888), (42891, 42954), (42960, 42961), (42963, 42963), (42965, 42969), (42994, 43009), (43011, 43013),
  (43015, 43018), (43020, 43042), (43072, 43123), (43138, 43187), (43250, 43255), (43259, 43259), (43261, 43262),
  (43274, 43301), (43312, 43334), (43360, 43388), (43396, 43442), (43471, 43471), (43488, 43492), (43494, 43503),
  (43514, 43518), (43520, 43560), (43584, 43586), (43588, 43595), (43616, 43638), (43642, 43642), (43646, 43695),
  (43697, 43697), (43701, 43702), (43705, 43709), (43712, 43712), (43714, 43714), (43739, 43741), (43744, 43754),
  (43762, 43764), (43777, 43782), (43785, 43790), (43793, 43798), (43808, 43814), (43816, 43822), (43824, 43866),
  (43868, 43881), (43888, 44002), (44032, 55203), (55216, 55238), (55243, 55291), (63744, 64109), (64112, 64217),
  (64256, 64262), (64275, 64279), (64285, 64285), (64287, 64296), (64298, 64310), (64312, 64316), (64318, 64318),
  (64320, 64321), (64323, 64324), (64326, 64433), (64467, 64829), (64848, 64911), (64914, 64967), (65008, 65019),
  (65136, 65140), (65142, 65276), (65313, 65338), (65345, 65370), (65382, 65470), (65474, 65479), (65482, 65487),
  (65490, 65495), (65498, 65500), (65536, 65547), (65549, 65574), (65576, 65594), (65596, 65597), (65599, 65613),
  (65616, 65629), (65664, 65786), (66176, 66204), (66208, 66256), (66304, 66335), (66349, 66368), (66370, 66377),
  (66384, 66421), (66432, 66461), (66464, 66499), (66504, 66511), (66560, 66717), (66736, 66771), (66776, 66811),
  (66816, 66855), (66864, 66915), (66928, 66938), (66940, 66954), (66956, 66962), (66964, 66965), (66967, 66977),
  (66979, 66993), (66995, 67001), (67003, 67004), (67072, 67382), (67392, 67413), (67424, 67431), (67456, 67461),
  (67463, 67504), (67506, 67514), (67584, 67589), (67592, 67592), (67594, 67637), (67639, 67640), (67644, 67644),
  (67647, 67669), (67680, 67702), (67712, 67742), (67808, 67826), (67828, 67829), (67840, 67861), (67872, 67897),
  (67968, 68023), (68030, 68031), (68096, 68096), (68112, 68115), (68117, 68119), (68121, 68149), (68192, 68220),
  (68224, 68252), (68288, 68295), (68297, 68324), (68352, 68405), (68416, 68437), (68448, 68466), (68480, 68497),
  (68608, 68680), (68736, 68786), (68800, 68850), (68864, 68899), (69248, 69289), (69296, 69297), (69376, 69404),
  (69415, 69415), (69424, 69445), (69488, 69505), (69552, 69572), (69600, 69622), (69635, 69687), (69745, 69746),
  (69749, 69749), (69763, 69807), (69840, 69864), (69891, 69926), (69956, 69956), (69959, 69959), (69968, 70002),
  (70006, 70006), (70019, 70066), (70081, 70084), (70106, 70106), (70108, 70108), (70144, 70161), (70163, 70187),
  (70272, 70278), (70280, 70280), (70282, 70285), (70287, 70301), (70303, 70312), (70320, 70366), (70405, 70412),
  (70415, 70416), (70419, 70440), (70442, 70448), (70450, 70451), (70453, 70457), (70461, 70461), (70480, 70480),
  (70493, 70497), (70656, 70708), (70727, 70730), (70751, 70753), (70784, 70831), (70852, 70853), (70855, 70855),
  (71040, 71086), (71128, 71131), (71168, 71215), (71236, 71236), (71296, 71338), (71352, 71352), (71424, 71450),
  (71488, 71494), (71680, 71723), (71840, 71903), (71935, 71942), (71945, 71945), (71948, 71955), (71957, 71958),
  (71960, 71983), (71999, 71999), (72001, 72001), (72096, 72103), (72106, 72144), (72161, 72161), (72163, 72163),
  (72192, 72192), (72203, 72242), (72250, 72250), (72272, 72272), (72284, 72329), (72349, 72349), (72368, 72440),
  (72704, 72712), (72714, 72750), (72768, 72768), (72818, 72847), (72960, 72966), (72968, 72969), (72971, 73008),
  (73030, 73030), (73056, 73061), (73063, 73064), (73066, 73097), (73112, 73112), (73440, 73458), (73648, 73648),
  (73728, 74649), (74880, 75075), (77712, 77808), (77824, 78894), (82944, 83526), (92160, 92728), (92736, 92766),
  (92784, 92862), (92880, 92909), (92928, 92975), (92992, 92995), (93027, 93047), (93053, 93071), (93760, 93823),
  (93952, 94026), (94032, 94032), (94099, 94111), (94176, 94177), (94179, 94179), (94208, 100343), (100352, 101589),
  (101632, 101640), (110576, 110579), (110581, 110587), (110589, 110590), (110592, 110882), (110928, 110930), (110948, 110951),
  (110960, 111355), (113664, 113770), (113776, 113788), (113792, 113800), (113808, 113817), (119808, 119892), (119894, 119964),
  (119966, 119967), (119970, 119970), (119973, 119974), (119977, 119980), (119982, 119993), (119995, 119995), (119997, 120003),
  (120005, 120069), (120071, 120074), (120077, 120084), (120086, 120092), (120094, 120121), (120123, 120126), (120128, 120132),
  (120134, 120134), (120138, 120144), (120146, 120485), (120488, 120512), (120514, 120538), (120540, 120570), (120572, 120596),
  (120598, 120628), (120630, 120654), (120656, 120686), (120688, 120712), (120714, 120744), (120746, 120770), (120772, 120779),
  (122624, 122654), (123136, 123180), (123191, 123197), (123214, 123214), (123536, 123565), (123584, 123627), (124896, 124902),
  (124904, 124907), (124909, 124910), (124912, 124926), (124928, 125124), (125184, 125251), (125259, 125259), (126464, 126467),
  (126469, 126495), (126497, 126498), (126500, 126500), (126503, 126503), (126505, 126514), (126516, 126519), (126521, 126521),
  (126523, 126523), (126530, 126530), (126535, 126535), (126537, 126537), (126539, 126539), (126541, 126543), (126545, 126546),
  (126548, 126548), (126551, 126551), (126553, 126553), (126555, 126555), (126557, 126557), (126559, 126559), (126561, 126562),
  (126564, 126564), (126567, 126570), (126572, 126578), (126580, 126583), (126585, 126588), (126590, 126590), (126592, 126601),
  (126603, 126619), (126625, 126627), (126629, 126633), (126635, 126651), (131072, 173791), (173824, 177976), (177984, 178205),
  (178208, 183969), (183984, 191456), (194560, 195101), (196608, 201546)]

/-- The maximal runs of cased code points, in ascending order, labelled 1
where Python's `str.isupper` is true for a single character (the Unicode
Uppercase property, consulted by `char.isupper()` at src/main.py line 58)
and 2 where `str.islower` is true (the Lowercase property).  The two
properties hold on disjoint sets of code points, so one labelled table
captures both (Unicode character database 14.0.0). -/
def caseTable : List (Nat × Nat × Nat) := [
  (65, 90, 1), (97, 122, 2), (170, 170, 2), (181, 181, 2), (186, 186, 2),
  (192, 214, 1), (216, 222, 1), (223, 246, 2), (248, 255, 2), (256, 256, 1),
  (257, 257, 2), (258, 258, 1), (259, 259, 2), (260, 260, 1), (261, 261, 2),
  (262, 262, 1), (263, 263, 2), (264, 264, 1), (265, 265, 2), (266, 266, 1),
  (267, 267, 2), (268, 268, 1), (269, 269, 2), (270, 270, 1), (271, 271, 2),
  (272, 272, 1), (273, 273, 2), (274, 274, 1), (275, 275, 2), (276, 276, 1),
  (277, 277, 2), (278, 278, 1), (279, 279, 2), (280, 280, 1), (281, 281, 2),
  (282, 282, 1), (283, 283, 2), (284, 284, 1), (285, 285, 2), (286, 286, 1),
  (287, 287, 2), (288, 288, 1), (289, 289, 2), (290, 290, 1), (291, 291, 2),
  (292, 292, 1), (293, 293, 2), (294, 294, 1), (295, 295, 2), (296, 296, 1),
  (297, 297, 2), (298, 298, 1), (299, 299, 2), (300, 300, 1), (301, 301, 2),
  (302, 302, 1), (303, 303, 2), (304, 304, 1), (305, 305, 2), (306, 306, 1),
  (307, 307, 2), (308, 308, 1), (309, 309, 2), (310, 310, 1), (311, 312, 2),
  (313, 313, 1), (314, 314, 2), (315, 315, 1), (316, 316, 2), (317, 317, 1),
  (318, 318, 2), (319, 319, 1), (320, 320, 2), (321, 321, 1), (322, 322, 2),
  (323, 323, 1), (324, 324, 2), (325, 325, 1), (326, 326, 2), (327, 327, 1),
  (328, 329, 2), (330, 330, 1), (331, 331, 2), (332, 332, 1), (333, 333, 2),
  (334, 334, 1), (335, 335, 2), (336, 336, 1), (337, 337, 2), (338, 338, 1),
  (339, 339, 2), (340, 340, 1), (341, 341, 2), (342, 342, 1), (343, 343, 2),
  (344, 344, 1), (345, 345, 2), (346, 346, 1), (347, 347, 2), (348, 348, 1),
  (349, 349, 2), (350, 350, 1), (351, 351, 2), (352, 352, 1), (353, 353, 2),
  (354, 354, 1), (355, 355, 2), (356, 356, 1), (357, 357, 2), (358, 358, 1),
  (359, 359, 2), (360, 360, 1), (361, 361, 2), (362, 362, 1), (363, 363, 2),
  (364, 364, 1), (365, 365, 2), (366, 366, 1), (367, 367, 2), (368, 368, 1),
  (369, 369, 2), (370, 370, 1), (371, 371, 2), (372, 372, 1), (373, 373, 2),
  (374, 374, 1), (375, 375, 2), (376, 377, 1), (378, 378, 2), (379, 379, 1),
  (380, 380, 2), (381, 381, 1), (382, 384, 2), (385, 386, 1), (387, 387, 2),
  (388, 388, 1), (389, 389, 2), (390, 391, 1), (392, 392, 2), (393, 395, 1),
  (396, 397, 2), (398, 401, 1), (402, 402, 2), (403, 404, 1), (405, 405, 2),
  (406, 408, 1), (409, 411, 2), (412, 413, 1), (414, 414, 2), (415, 416, 1),
  (417, 417, 2), (418, 418, 1), (419, 419, 2), (420, 420, 1), (421, 421, 2),
  (422, 423, 1), (424, 424, 2), (425, 425, 1), (426, 427, 2), (428, 428, 1),
  (429, 429, 2), (430, 431, 1), (432, 432, 2), (433, 435, 1), (436, 436, 2),
  (437, 437, 1), (438, 438, 2), (439, 440, 1), (441, 442, 2), (444, 444, 1),
  (445, 447, 2), (452, 452, 1), (454, 454, 2), (455, 455, 1), (457, 457, 2),
  (458, 458, 1), (460, 460, 2), (461, 461, 1), (462, 462, 2), (463, 463, 1),
  (464, 464, 2), (465, 465, 1), (466, 466, 2), (467, 467, 1), (468, 468, 2),
  (469, 469, 1), (470, 470, 2), (471, 471, 1), (472, 472, 2), (473, 473, 1),
  (474, 474, 2), (475, 475, 1), (476, 477, 2), (478, 478, 1), (479, 479, 2),
  (480, 480, 1), (481, 481, 2), (482, 482, 1), (483, 483, 2), (484, 484, 1),
  (485, 485, 2), (486, 486, 1), (487, 487, 2), (488, 488, 1), (489, 489, 2),
  (490, 490, 1), (491, 491, 2), (492, 492, 1), (493, 493, 2), (494, 494, 1),
  (495, 496, 2), (497, 497, 1), (499, 499, 2), (500, 500, 1), (501, 501, 2),
  (502, 504, 1), (505, 505, 2), (506, 506, 1), (507, 507, 2), (508, 508, 1),
  (509, 509, 2), (510, 510, 1), (511, 511, 2), (512, 512, 1), (513, 513, 2),
  (514, 514, 1), (515, 515, 2), (516, 516, 1), (517, 517, 2), (518, 518, 1),
  (519, 519, 2), (520, 520, 1), (521, 521, 2), (522, 522, 1), (523, 523, 2),
  (524, 524, 1), (525, 525, 2), (526, 526, 1), (527, 527, 2), (528, 528, 1),
  (529, 529, 2), (530, 530, 1), (531, 531, 2), (532, 532, 1), (533, 533, 2),
  (534, 534, 1), (535, 535, 2), (536, 536, 1), (537, 537, 2), (538, 538, 1),
  (539, 539, 2), (540, 540, 1), (541, 541, 2), (542, 542, 1), (543, 543, 2),
  (544, 544, 1), (545, 545, 2), (546, 546, 1), (547, 547, 2), (548, 548, 1),
  (549, 549, 2), (550, 550, 1), (551, 551, 2), (552, 552, 1), (553, 553, 2),
  (554, 554, 1), (555, 555, 2), (556, 556, 1), (557, 557, 2), (558, 558, 1),
  (559, 559, 2), (560, 560, 1), (561, 561, 2), (562, 562, 1), (563, 569, 2),
  (570, 571, 1), (572, 572, 2), (573, 574, 1), (575, 576, 2), (577, 577, 1),
  (578, 578, 2), (579, 582, 1), (583, 583, 2), (584, 584, 1), (585, 585, 2),
  (586, 586, 1), (587, 587, 2), (588, 588, 1), (589, 589, 2), (590, 590, 1),
  (591, 659, 2), (661, 696, 2), (704, 705, 2), (736, 740, 2), (837, 837, 2),
  (880, 880, 1), (881, 881, 2), (882, 882, 1), (883, 883, 2), (886, 886, 1),
  (887, 887, 2), (890, 893, 2), (895, 895, 1), (902, 902, 1), (904, 906, 1),
  (908, 908, 1), (910, 911, 1), (912, 912, 2), (913, 929, 1), (931, 939, 1),
  (940, 974, 2), (975, 975, 1), (976, 977, 2), (978, 980, 1), (981, 983, 2),
  (984, 984, 1), (985, 985, 2), (986, 986, 1), (987, 987, 2), (988, 988, 1),
  (989, 989, 2), (990, 990, 1), (991, 991, 2), (992, 992, 1), (993, 993, 2),
  (994, 994, 1), (995, 995, 2), (996, 996, 1), (997, 997, 2), (998, 998, 1),
  (999, 999, 2), (1000, 1000, 1), (1001, 1001, 2), (1002, 1002, 1), (1003, 1003, 2),
  (1004, 1004, 1), (1005, 1005, 2), (1006, 1006, 1), (1007, 1011, 2), (1012, 1012, 1),
  (1013, 1013, 2), (1015, 1015, 1), (1016, 1016, 2), (1017, 1018, 1), (1019, 1020, 2),
  (1021, 1071, 1), (1072, 1119, 2), (1120, 1120, 1), (1121, 1121, 2), (1122, 1122, 1),
  (1123, 1123, 2), (1124, 1124, 1), (1125, 1125, 2), (1126, 1126, 1), (1127, 1127, 2),
  (1128, 1128, 1), (1129, 1129, 2), (1130, 1130, 1), (1131, 1131, 2), (1132, 1132, 1),
  (1133, 1133, 2), (1134, 1134, 1), (1135, 1135, 2), (1136, 1136, 1), (1137, 1137, 2),
  (1138, 1138, 1), (1139, 1139, 2), (1140, 1140, 1), (1141, 1141, 2), (1142, 1142, 1),
  (1143, 1143, 2), (1144, 1144, 1), (1145, 1145, 2), (1146, 1146, 1), (1147, 1147, 2),
  (1148, 1148, 1), (1149, 1149, 2), (1150, 1150, 1), (1151, 1151, 2), (1152, 1152, 1),
  (1153, 1153, 2), (1162, 1162, 1), (1163, 1163, 2), (1164, 1164, 1), (1165, 1165, 2),
  (1166, 1166, 1), (1167, 1167, 2), (1168, 1168, 1), (1169, 1169, 2), (1170, 1170, 1),
  (1171, 1171, 2), (1172, 1172, 1), (1173, 1173, 2), (1174, 1174, 1), (1175, 1175, 2),
  (1176, 1176, 1), (1177, 1177, 2), (1178, 1178, 1), (1179, 1179, 2), (1180, 1180, 1),
  (1181, 1181, 2), (1182, 1182, 1), (1183, 1183, 2), (1184, 1184, 1), (1185, 1185, 2),
  (1186, 1186, 1), (1187, 1187, 2), (1188, 1188, 1), (1189, 1189, 2), (1190, 1190, 1),
  (1191, 1191, 2), (1192, 1192, 1), (1193, 1193, 2), (1194, 1194, 1), (1195, 1195, 2),
  (1196, 1196, 1), (1197, 1197, 2), (1198, 1198, 1), (1199, 1199, 2), (1200, 1200, 1),
  (1201, 1201, 2), (1202, 1202, 1), (1203, 1203, 2), (1204, 1204, 1), (1205, 1205, 2),
  (1206, 1206, 1), (1207, 1207, 2), (1208, 1208, 1), (1209, 1209, 2), (1210, 1210, 1),
  (1211, 1211, 2), (1212, 1212, 1), (1213, 1213, 2), (1214, 1214, 1), (1215, 1215, 2),
  (1216, 1217, 1), (1218, 1218, 2), (1219, 1219, 1), (1220, 1220, 2), (1221, 1221, 1),
  (1222, 1222, 2), (1223, 1223, 1), (1224, 1224, 2), (1225, 1225, 1), (1226, 1226, 2),
  (1227, 1227, 1), (1228, 1228, 2), (1229, 1229, 1), (1230, 1231, 2), (1232, 1232, 1),
  (1233, 1233, 2), (1234, 1234, 1), (1235, 1235, 2), (1236, 1236, 1), (1237, 1237, 2),
  (1238, 1238, 1), (1239, 1239, 2), (1240, 1240, 1), (1241, 1241, 2), (1242, 1242, 1),
  (1243, 1243, 2), (1244, 1244, 1), (1245, 1245, 2), (1246, 1246, 1), (1247, 1247, 2),
  (1248, 1248, 1), (1249, 1249, 2), (1250, 1250, 1), (1251, 1251, 2), (1252, 1252, 1),
  (1253, 1253, 2), (1254, 1254, 1), (1255, 1255, 2), (1256, 1256, 1), (1257, 1257, 2),
  (1258, 1258, 1), (1259, 1259, 2), (1260, 1260, 1), (1261, 1261, 2), (1262, 1262, 1),
  (1263, 1263, 2), (1264, 1264, 1), (1265, 1265, 2), (1266, 1266, 1), (1267, 1267, 2),
  (1268, 1268, 1), (1269, 1269, 2), (1270, 1270, 1), (1271, 1271, 2), (1272, 1272, 1),
  (1273, 1273, 2), (1274, 1274, 1), (1275, 1275, 2), (1276, 1276, 1), (1277, 1277, 2),
  (1278, 1278, 1), (1279, 1279, 2), (1280, 1280, 1), (1281, 1281, 2), (1282, 1282, 1),
  (1283, 1283, 2), (1284, 1284, 1), (1285, 1285, 2), (1286, 1286, 1), (1287, 1287, 2),
  (1288, 1288, 1), (1289, 1289, 2), (1290, 1290, 1), (1291, 1291, 2), (1292, 1292, 1),
  (1293, 1293, 2), (1294, 1294, 1), (1295, 1295, 2), (1296, 1296, 1), (1297, 1297, 2),
  (1298, 1298, 1), (1299, 1299, 2), (1300, 1300, 1), (1301, 1301, 2), (1302, 1302, 1),
  (1303, 1303, 2), (1304, 1304, 1), (1305, 1305, 2), (1306, 1306, 1), (1307, 1307, 2),
  (1308, 1308, 1), (1309, 1309, 2), (1310, 1310, 1), (1311, 1311, 2), (1312, 1312, 1),
  (1313, 1313, 2), (1314, 1314, 1), (1315, 1315, 2), (1316, 1316, 1), (1317, 1317, 2),
  (1318, 1318, 1), (1319, 1319, 2), (1320, 1320, 1), (1321, 1321, 2), (1322, 1322, 1),
  (1323, 1323, 2), (1324, 1324, 1), (1325, 1325, 2), (1326, 1326, 1), (1327, 1327, 2),
  (1329, 1366, 1), (1376, 1416, 2), (4256, 4293, 1), (4295, 4295, 1), (4301, 4301, 1),
  (4304, 4346, 2), (4349, 4351, 2), (5024, 5109, 1), (5112, 5117, 2), (7296, 7304, 2),
  (7312, 7354, 1), (7357, 7359, 1), (7424, 7615, 2), (7680, 7680, 1), (7681, 7681, 2),
  (7682, 7682, 1), (7683, 7683, 2), (7684, 7684, 1), (7685, 7685, 2), (7686, 7686, 1),
  (7687, 7687, 2), (7688, 7688, 1), (7689, 7689, 2), (7690, 7690, 1), (7691, 7691, 2),
  (7692, 7692, 1), (7693, 7693, 2), (7694, 7694, 1), (7695, 7695, 2), (7696, 7696, 1),
  (7697, 7697, 2), (7698, 7698, 1), (7699, 7699, 2), (7700, 7700, 1), (7701, 7701, 2),
  (7702, 7702, 1), (7703, 7703, 2), (7704, 7704, 1), (7705, 7705, 2), (7706, 7706, 1),
  (7707, 7707, 2), (7708, 7708, 1), (7709, 7709, 2), (7710, 7710, 1), (7711, 7711, 2),
  (7712, 7712, 1), (7713, 7713, 2), (7714, 7714, 1), (7715, 7715, 2), (7716, 7716, 1),
  (7717, 7717, 2), (7718, 7718, 1), (7719, 7719, 2), (7720, 7720, 1), (7721, 7721, 2),
  (7722, 7722, 1), (7723, 7723, 2), (7724, 7724, 1), (7725, 7725, 2), (7726, 7726, 1),
  (7727, 7727, 2), (7728, 7728, 1), (7729, 7729, 2), (7730, 7730, 1), (7731, 7731, 2),
  (7732, 7732, 1), (7733, 7733, 2), (7734, 7734, 1), (7735, 7735, 2), (7736, 7736, 1),
  (7737, 7737, 2), (7738, 7738, 1), (7739, 7739, 2), (7740, 7740, 1), (7741, 7741, 2),
  (7742, 7742, 1), (7743, 7743, 2), (7744, 7744, 1), (7745, 7745, 2), (7746, 7746, 1),
  (7747, 7747, 2), (7748, 7748, 1), (7749, 7749, 2), (7750, 7750, 1), (7751, 7751, 2),
  (7752, 7752, 1), (7753, 7753, 2), (7754, 7754, 1), (7755, 7755, 2), (7756, 7756, 1),
  (7757, 7757, 2), (7758, 7758, 1), (7759, 7759, 2), (7760, 7760, 1), (7761, 7761, 2),
  (7762, 7762, 1), (7763, 7763, 2), (7764, 7764, 1), (7765, 7765, 2), (7766, 7766, 1),
  (7767, 7767, 2), (7768, 7768, 1), (7769, 7769, 2), (7770, 7770, 1), (7771, 7771, 2),
  (7772, 7772, 1), (7773, 7773, 2), (7774, 7774, 1), (7775, 7775, 2), (7776, 7776, 1),
  (7777, 7777, 2), (7778, 7778, 1), (7779, 7779, 2), (7780, 7780, 1), (7781, 7781, 2),
  (7782, 7782, 1), (7783, 7783, 2), (7784, 7784, 1), (7785, 7785, 2), (7786, 7786, 1),
  (7787, 7787, 2), (7788, 7788, 1), (7789, 7789, 2), (7790, 7790, 1), (7791, 7791, 2),
  (7792, 7792, 1), (7793, 7793, 2), (7794, 7794, 1), (7795, 7795, 2), (7796, 7796, 1),
  (7797, 7797, 2), (7798, 7798, 1), (7799, 7799, 2), (7800, 7800, 1), (7801, 7801, 2),
  (7802, 7802, 1), (7803, 7803, 2), (7804, 7804, 1), (7805, 7805, 2), (7806, 7806, 1),
  (7807, 7807, 2), (7808, 7808, 1), (7809, 7809, 2), (7810, 7810, 1), (7811, 7811, 2),
  (7812, 7812, 1), (7813, 7813, 2), (7814, 7814, 1), (7815, 7815, 2), (7816, 7816, 1),
  (7817, 7817, 2), (7818, 7818, 1), (7819, 7819, 2), (7820, 7820, 1), (7821, 7821, 2),
  (7822, 7822, 1), (7823, 7823, 2), (7824, 7824, 1), (7825, 7825, 2), (7826, 7826, 1),
  (7827, 7827, 2), (7828, 7828, 1), (7829, 7837, 2), (7838, 7838, 1), (7839, 7839, 2),
  (7840, 7840, 1), (7841, 7841, 2), (7842, 7842, 1), (7843, 7843, 2), (7844, 7844, 1),
  (7845, 7845, 2), (7846, 7846, 1), (7847, 7847, 2), (7848, 7848, 1), (7849, 7849, 2),
  (7850, 7850, 1), (7851, 7851, 2), (7852, 7852, 1), (7853, 7853, 2), (7854, 7854, 1),
  (7855, 7855, 2), (7856, 7856, 1), (7857, 7857, 2), (7858, 7858, 1), (7859, 7859, 2),
  (7860, 7860, 1), (7861, 7861, 2), (7862, 7862, 1), (7863, 7863, 2), (7864, 7864, 1),
  (7865, 7865, 2), (7866, 7866, 1), (7867, 7867, 2), (7868, 7868, 1), (7869, 7869, 2),
  (7870, 7870, 1), (7871, 7871, 2), (7872, 7872, 1), (7873, 7873, 2), (7874, 7874, 1),
  (7875, 7875, 2), (7876, 7876, 1), (7877, 7877, 2), (7878, 7878, 1), (7879, 7879, 2),
  (7880, 7880, 1), (7881, 7881, 2), (7882, 7882, 1), (7883, 7883, 2), (7884, 7884, 1),
  (7885, 7885, 2), (7886, 7886, 1), (7887, 7887, 2), (7888, 7888, 1), (7889, 7889, 2),
  (7890, 7890, 1), (7891, 7891, 2), (7892, 7892, 1), (7893, 7893, 2), (7894, 7894, 1),
  (7895, 7895, 2), (7896, 7896, 1), (7897, 7897, 2), (7898, 7898, 1), (7899, 7899, 2),
  (7900, 7900, 1), (7901, 7901, 2), (7902, 7902, 1), (7903, 7903, 2), (7904, 7904, 1),
  (7905, 7905, 2), (7906, 7906, 1), (7907, 7907, 2), (7908, 7908, 1), (7909, 7909, 2),
  (7910, 7910, 1), (7911, 7911, 2), (7912, 7912, 1), (7913, 7913, 2), (7914, 7914, 1),
  (7915, 7915, 2), (7916, 7916, 1), (7917, 7917, 2), (7918, 7918, 1), (7919, 7919, 2),
  (7920, 7920, 1), (7921, 7921, 2), (7922, 7922, 1), (7923, 7923, 2), (7924, 7924, 1),
  (7925, 7925, 2), (7926, 7926, 1), (7927, 7927, 2), (7928, 7928, 1), (7929, 7929, 2),
  (7930, 7930, 1), (7931, 7931, 2), (7932, 7932, 1), (7933, 7933, 2), (7934, 7934, 1),
  (7935, 7943, 2), (7944, 7951, 1), (7952, 7957, 2), (7960, 7965, 1), (7968, 7975, 2),
  (7976, 7983, 1), (7984, 7991, 2), (7992, 7999, 1), (8000, 8005, 2), (8008, 8013, 1),
  (8016, 8023, 2), (8025, 8025, 1), (8027, 8027, 1), (8029, 8029, 1), (8031, 8031, 1),
  (8032, 8039, 2), (8040, 8047, 1), (8048, 8061, 2), (8064, 8071, 2), (8080, 8087, 2),
  (8096, 8103, 2), (8112, 8116, 2), (8118, 8119, 2), (8120, 8123, 1), (8126, 8126, 2),
  (8130, 8132, 2), (8134, 8135, 2), (8136, 8139, 1), (8144, 8147, 2), (8150, 8151, 2),
  (8152, 8155, 1), (8160, 8167, 2), (8168, 8172, 1), (8178, 8180, 2), (8182, 8183, 2),
  (8184, 8187, 1), (8305, 8305, 2), (8319, 8319, 2), (8336, 8348, 2), (8450, 8450, 1),
  (8455, 8455, 1), (8458, 8458, 2), (8459, 8461, 1), (8462, 8463, 2), (8464, 8466, 1),
  (8467, 8467, 2), (8469, 8469, 1), (8473, 8477, 1), (8484, 8484, 1), (8486, 8486, 1),
  (8488, 8488, 1), (8490, 8493, 1), (8495, 8495, 2), (8496, 8499, 1), (8500, 8500, 2),
  (8505, 8505, 2), (8508, 8509, 2), (8510, 8511, 1), (8517, 8517, 1), (8518, 8521, 2),
  (8526, 8526, 2), (8544, 8559, 1), (8560, 8575, 2), (8579, 8579, 1), (8580, 8580, 2),
  (9398, 9423, 1), (9424, 9449, 2), (11264, 11311, 1), (11312, 11359, 2), (11360, 11360, 1),
  (11361, 11361, 2), (11362, 11364, 1), (11365, 11366, 2), (11367, 11367, 1), (11368, 11368, 2),
  (11369, 11369, 1), (11370, 11370, 2), (11371, 11371, 1), (11372, 11372, 2), (11373, 11376, 1),
  (11377, 11377, 2), (11378, 11378, 1), (11379, 11380, 2), (11381, 11381, 1), (11382, 11389, 2),
  (11390, 11392, 1), (11393, 11393, 2), (11394, 11394, 1), (11395, 11395, 2), (11396, 11396, 1),
  (11397, 11397, 2), (11398, 11398, 1), (11399, 11399, 2), (11400, 11400, 1), (11401, 11401, 2),
  (11402, 11402, 1), (11403, 11403, 2), (11404, 11404, 1), (11405, 11405, 2), (11406, 11406, 1),
  (11407, 11407, 2), (11408, 11408, 1), (11409, 11409, 2), (11410, 11410, 1), (11411, 11411, 2),
  (11412, 11412, 1), (11413, 11413, 2), (11414, 11414, 1), (11415, 11415, 2), (11416, 11416, 1),
  (11417, 11417, 2), (11418, 11418, 1), (11419, 11419, 2), (11420, 11420, 1), (11421, 11421, 2),
  (11422, 11422, 1), (11423, 11423, 2), (11424, 11424, 1), (11425, 11425, 2), (11426, 11426, 1),
  (11427, 11427, 2), (11428, 11428, 1), (11429, 11429, 2), (11430, 11430, 1), (11431, 11431, 2),
  (11432, 11432, 1), (11433, 11433, 2), (11434, 11434, 1), (11435, 11435, 2), (11436, 11436, 1),
  (11437, 11437, 2), (11438, 11438, 1), (11439, 11439, 2), (11440, 11440, 1), (11441, 11441, 2),
  (11442, 11442, 1), (11443, 11443, 2), (11444, 11444, 1), (11445, 11445, 2), (11446, 11446, 1),
  (11447, 11447, 2), (11448, 11448, 1), (11449, 11449, 2), (11450, 11450, 1), (11451, 11451, 2),
  (11452, 11452, 1), (11453, 11453, 2), (11454, 11454, 1), (11455, 11455, 2), (11456, 11456, 1),
  (11457, 11457, 2), (11458, 11458, 1), (11459, 11459, 2), (11460, 11460, 1), (11461, 11461, 2),
  (11462, 11462, 1), (11463, 11463, 2), (11464, 11464, 1), (11465, 11465, 2), (11466, 11466, 1),
  (11467, 11467, 2), (11468, 11468, 1), (11469, 11469, 2), (11470, 11470, 1), (11471, 11471, 2),
  (11472, 11472, 1), (11473, 11473, 2), (11474, 11474, 1), (11475, 11475, 2), (11476, 11476, 1),
  (11477, 11477, 2), (11478, 11478, 1), (11479, 11479, 2), (11480, 11480, 1), (11481, 11481, 2),
  (11482, 11482, 1), (11483, 11483, 2), (11484, 11484, 1), (11485, 11485, 2), (11486, 11486, 1),
  (11487, 11487, 2), (11488, 11488, 1), (11489, 11489, 2), (11490, 11490, 1), (11491, 11492, 2),
  (11499, 11499, 1), (11500, 11500, 2), (11501, 11501, 1), (11502, 11502, 2), (11506, 11506, 1),
  (11507, 11507, 2), (11520, 11557, 2), (11559, 11559, 2), (11565, 11565, 2), (42560, 42560, 1),
  (42561, 42561, 2), (42562, 42562, 1), (42563, 42563, 2), (42564, 42564, 1), (42565, 42565, 2),
  (42566, 42566, 1), (42567, 42567, 2), (42568, 42568, 1), (42569, 42569, 2), (42570, 42570, 1),
  (42571, 42571, 2), (42572, 42572, 1), (42573, 42573, 2), (42574, 42574, 1), (42575, 42575, 2),
  (42576, 42576, 1), (42577, 42577, 2), (42578, 42578, 1), (42579, 42579, 2), (42580, 42580, 1),
  (42581, 42581, 2), (42582, 42582, 1), (42583, 42583, 2), (42584, 42584, 1), (42585, 42585, 2),
  (42586, 42586, 1), (42587, 42587, 2), (42588, 42588, 1), (42589, 42589, 2), (42590, 42590, 1),
  (42591, 42591, 2), (42592, 42592, 1), (42593, 42593, 2), (42594, 42594, 1), (42595, 42595, 2),
  (42596, 42596, 1), (42597, 42597, 2), (42598, 42598, 1), (42599, 42599, 2), (42600, 42600, 1),
  (42601, 42601, 2), (42602, 42602, 1), (42603, 42603, 2), (42604, 42604, 1), (42605, 42605, 2),
  (42624, 42624, 1), (42625, 42625, 2), (42626, 42626, 1), (42627, 42627, 2), (42628, 42628, 1),
  (42629, 42629, 2), (42630, 42630, 1), (42631, 42631, 2), (42632, 42632, 1), (42633, 42633, 2),
  (42634, 42634, 1), (42635, 42635, 2), (42636, 42636, 1), (42637, 42637, 2), (42638, 42638, 1),
  (42639, 42639, 2), (42640, 42640, 1), (42641, 42641, 2), (42642, 42642, 1), (42643, 42643, 2),
  (42644, 42644, 1), (42645, 42645, 2), (42646, 42646, 1), (42647, 42647, 2), (42648, 42648, 1),
  (42649, 42649, 2), (42650, 42650, 1), (42651, 42653, 2), (42786, 42786, 1), (42787, 42787, 2),
  (42788, 42788, 1), (42789, 42789, 2), (42790, 42790, 1), (42791, 42791, 2), (42792, 42792, 1),
  (42793, 42793, 2), (42794, 42794, 1), (42795, 42795, 2), (42796, 42796, 1), (42797, 42797, 2),
  (42798, 42798, 1), (42799, 42801, 2), (42802, 42802, 1), (42803, 42803, 2), (42804, 42804, 1),
  (42805, 42805, 2), (42806, 42806, 1), (42807, 42807, 2), (42808, 42808, 1), (42809, 42809, 2),
  (42810, 42810, 1), (42811, 42811, 2), (42812, 42812, 1), (42813, 42813, 2), (42814, 42814, 1),
  (42815, 42815, 2), (42816, 42816, 1), (42817, 42817, 2), (42818, 42818, 1), (42819, 42819, 2),
  (42820, 42820, 1), (42821, 42821, 2), (42822, 42822, 1), (42823, 42823, 2), (42824, 42824, 1),
  (42825, 42825, 2), (42826, 42826, 1), (42827, 42827, 2), (42828, 42828, 1), (42829, 42829, 2),
  (42830, 42830, 1), (42831, 42831, 2), (42832, 42832, 1), (42833, 42833, 2), (42834, 42834, 1),
  (42835, 42835, 2), (42836, 42836, 1), (42837, 42837, 2), (42838, 42838, 1), (42839, 42839, 2),
  (42840, 42840, 1), (42841, 42841, 2), (42842, 42842, 1), (42843, 42843, 2), (42844, 42844, 1),
  (42845, 42845, 2), (42846, 42846, 1), (42847, 42847, 2), (42848, 42848, 1), (42849, 42849, 2),
  (42850, 42850, 1), (42851, 42851, 2), (42852, 42852, 1), (42853, 42853, 2), (42854, 42854, 1),
  (42855, 42855, 2), (42856, 42856, 1), (42857, 42857, 2), (42858, 42858, 1), (42859, 42859, 2),
  (42860, 42860, 1), (42861, 42861, 2), (42862, 42862, 1), (42863, 42872, 2), (42873, 42873, 1),
  (42874, 42874, 2), (42875, 42875, 1), (42876, 42876, 2), (42877, 42878, 1), (42879, 42879, 2),
  (42880, 42880, 1), (42881, 42881, 2), (42882, 42882, 1), (42883, 42883, 2), (42884, 42884, 1),
  (42885, 42885, 2), (42886, 42886, 1), (42887, 42887, 2), (42891, 42891, 1), (42892, 42892, 2),
  (42893, 42893, 1), (42894, 42894, 2), (42896, 42896, 1), (42897, 42897, 2), (42898, 42898, 1),
  (42899, 42901, 2), (42902, 42902, 1), (42903, 42903, 2), (42904, 42904, 1), (42905, 42905, 2),
  (42906, 42906, 1), (42907, 42907, 2), (42908, 42908, 1), (42909, 42909, 2), (42910, 42910, 1),
  (42911, 42911, 2), (42912, 42912, 1), (42913, 42913, 2), (42914, 42914, 1), (42915, 42915, 2),
  (42916, 42916, 1), (42917, 42917, 2), (42918, 42918, 1), (42919, 42919, 2), (42920, 42920, 1),
  (42921, 42921, 2), (42922, 42926, 1), (42927, 42927, 2), (42928, 42932, 1), (42933, 42933, 2),
  (42934, 42934, 1), (42935, 42935, 2), (42936, 42936, 1), (42937, 42937, 2), (42938, 42938, 1),
  (42939, 42939, 2), (42940, 42940, 1), (42941, 42941, 2), (42942, 42942, 1), (42943, 42943, 2),
  (42944, 42944, 1), (42945, 42945, 2), (42946, 42946, 1), (42947, 42947, 2), (42948, 42951, 1),
  (42952, 42952, 2), (42953, 42953, 1), (42954, 42954, 2), (42960, 42960, 1), (42961, 42961, 2),
  (42963, 42963, 2), (42965, 42965, 2), (42966, 42966, 1), (42967, 42967, 2), (42968, 42968, 1),
  (42969, 42969, 2), (42997, 42997, 1), (42998, 42998, 2), (43000, 43002, 2), (43824, 43866, 2),
  (43868, 43880, 2), (43888, 43967, 2), (64256, 64262, 2), (64275, 64279, 2), (65313, 65338, 1),
  (65345, 65370, 2), (66560, 66599, 1), (66600, 66639, 2), (66736, 66771, 1), (66776, 66811, 2),
  (66928, 66938, 1), (66940, 66954, 1), (66956, 66962, 1), (66964, 66965, 1), (66967, 66977, 2),
  (66979, 66993, 2), (66995, 67001, 2), (67003, 67004, 2), (67456, 67456, 2), (67459, 67461, 2),
  (67463, 67504, 2), (67506, 67514, 2), (68736, 68786, 1), (68800, 68850, 2), (71840, 71871, 1),
  (71872, 71903, 2), (93760, 93791, 1), (93792, 93823, 2), (119808, 119833, 1), (119834, 119859, 2),
  (119860, 119885, 1), (119886, 119892, 2), (119894, 119911, 2), (119912, 119937, 1), (119938, 119963, 2),
  (119964, 119964, 1), (119966, 119967, 1), (119970, 119970, 1), (119973, 119974, 1), (119977, 119980, 1),
  (119982, 119989, 1), (119990, 119993, 2), (119995, 119995, 2), (119997, 120003, 2), (120005, 120015, 2),
  (120016, 120041, 1), (120042, 120067, 2), (120068, 120069, 1), (120071, 120074, 1), (120077, 120084, 1),
  (120086, 120092, 1), (120094, 120119, 2), (120120, 120121, 1), (120123, 120126, 1), (120128, 120132, 1),
  (120134, 120134, 1), (120138, 120144, 1), (120146, 120171, 2), (120172, 120197, 1), (120198, 120223, 2),
  (120224, 120249, 1), (120250, 120275, 2), (120276, 120301, 1), (120302, 120327, 2), (120328, 120353, 1),
  (120354, 120379, 2), (120380, 120405, 1), (120406, 120431, 2), (120432, 120457, 1), (120458, 120485, 2),
  (120488, 120512, 1), (120514, 120538, 2), (120540, 120545, 2), (120546, 120570, 1), (120572, 120596, 2),
  (120598, 120603, 2), (120604, 120628, 1), (120630, 120654, 2), (120656, 120661, 2), (120662, 120686, 1),
  (120688, 120712, 2), (120714, 120719, 2), (120720, 120744, 1), (120746, 120770, 2), (120772, 120777, 2),
  (120778, 120778, 1), (120779, 120779, 2), (122624, 122633, 2), (122635, 122654, 2), (125184, 125217, 1),
  (125218, 125251, 2), (127280, 127305, 1), (127312, 127337, 1), (127344, 127369, 1)]

/-- Python `str.isalpha` on a single character (the call at src/main.py
line 56). -/
def pyIsAlpha (c : Char) : Bool :=
  memRanges c.toNat alphaRanges

/-- Python `str.isupper` on a single character (the call at src/main.py
line 58). -/
def pyIsUpper (c : Char) : Bool :=
  caseLookup c.toNat caseTable == 1

/-- Python `str.islower` on a single character. -/
def pyIsLower (c : Char) : Bool :=
  caseLookup c.toNat caseTable == 2

/-- Membership in the ASCII alphabet `A`-`Z` / `a`-`z` (the two ranges the
transform writes into). -/
def asciiAlpha (c : Char) : Bool :=
  decide ((65 ≤ c.toNat ∧ c.toNat ≤ 90) ∨ (97 ≤ c.toNat ∧ c.toNat ≤ 122))

/-- The loop body of `CaesarCipher.cipher` (src/main.py lines 55-64) for one
character: an alphabetic character is rotated inside the 26-letter range
whose base is `ord('A')` when the character is uppercase and `ord('a')`
otherwise, `(ord(char) - base + shift) % 26 + base`; any other character is
kept unchanged.  Python `%` with positive right operand agrees with
`Int.emod`. -/
def cipherChar (shift : Int) (c : Char) : Char :=
  if pyIsAlpha c then
    let base : Int := if pyIsUpper c then 65 else 97
    Char.ofNat ((((c.toNat : Int) - base + shift) % alphabet_size + base).toNat)
  else
    c

/-- The accumulation loop of `CaesarCipher.cipher` (src/main.py lines 53-66):
`result = ""` followed by appending the transform of each character of
`text` in order. -/
def cipherBody (text : String) (shift : Int) : String :=
  text.data.foldl (fun result c => result.push (cipherChar shift c)) ""

/-- `CaesarCipher.cipher` (src/main.py lines 32-66): rejects a shift outside
`[min_shift, max_shift]` by raising `ValueError` (modelled as
`Except.error`, before any transformation happens), negates the shift when
`decrypt` is true, and otherwise applies the character loop. -/
def cipher (text : String) (shift : Int) (decrypt : Bool) : Except String String :=
  if ¬ (min_shift ≤ shift ∧ shift ≤ max_shift) then
    Except.error "Shift must be between 1 and 25"
  else
    Except.ok (cipherBody text (if decrypt then -shift else shift))

/-- `CaesarCipher.encrypt` (src/main.py lines 68-70). -/
def encrypt (text : String) (shift : Int) : Except String String :=
  cipher text shift false

/-- `CaesarCipher.decrypt` (src/main.py lines 72-74). -/
def decrypt (text : String) (shift : Int) : Except String String :=
  cipher text shift true

/-- The `for shift in range(...)` loop of `CaesarCipher.brute_force_decrypt`
(src/main.py lines 87-91), processing the remaining shift values in order
and appending `(shift, decrypted)` to the accumulated results; an exception
raised by `decrypt` propagates.  A Python dict with the distinct keys
1..25 inserted in ascending order is modelled as the association list in
insertion order. -/
def bruteLoop (encrypted_text : String) (results : List (Int × String)) :
    List Int → Except String (List (Int × String))
  | [] => Except.ok results
  | shift :: rest =>
    match decrypt encrypted_text shift with
    | Except.error e => Except.error e
    | Except.ok d => bruteLoop encrypted_text (results ++ [(shift, d)]) rest

/-- The iteration sequence `range(self.min_shift, self.max_shift + 1)` of
`CaesarCipher.brute_force_decrypt` (src/main.py line 88): the shift values
1..25 in ascending order. -/
def shiftList : List Int :=
  (List.range 25).map fun i : Nat => min_shift + (i : Int)

/-- `CaesarCipher.brute_force_decrypt` (src/main.py lines 76-91): tries the
shift values 1..25 in ascending order. -/
def brute_force_decrypt (encrypted_text : String) :
    Except String (List (Int × String)) :=
  bruteLoop encrypted_text [] shiftList

/-- Python `str.rfind` for a single-character needle, on the tail of the
character list starting at index `i` with `acc` the best index found so
far: the highest index at which the character occurs, or `-1` when it does
not occur.  Used by `posixpath.splitext`. -/
def rfindAux (c : Char) : List Char → Nat → Int → Int
  | [], _, acc => acc
  | x :: xs, i, acc => rfindAux c xs (i + 1) (if x = c then (i : Int) else acc)

/-- Python `p.rfind(c)` for a string `p` and a single character `c`. -/
def rfind (p : String) (c : Char) : Int :=
  rfindAux c p.data 0 (-1)

/-- The scan performed by the `while filenameIndex < dotIndex` loop of
`genericpath._splitext`, over the window of characters between
`filenameIndex` and `dotIndex`: the loop splits (returns from the function)
as soon as it meets a character distinct from `.`, scanning left to right,
and falls through when the whole window is dots. -/
def anyNonDot : List Char → Bool
  | [] => false
  | c :: cs => if c = '.' then anyNonDot cs else true

/-- `os.path.splitext` as called in src/main.py lines 112 and 149
(`posixpath.splitext`, i.e. `genericpath._splitext` with separator `/`, no
alternate separator and extension separator `.`): when the last `.` lies
strictly after the last `/` and the characters between the start of the
final path component and that `.` are not all dots, split before the last
`.`; otherwise the extension is empty. -/
def splitext (p : String) : String × String :=
  let sepIndex := rfind p '/'
  let dotIndex := rfind p '.'
  if sepIndex < dotIndex then
    let filenameIndex := (sepIndex + 1).toNat
    if anyNonDot ((p.data.drop filenameIndex).take (dotIndex.toNat - filenameIndex)) then
      (String.mk (p.data.take dotIndex.toNat), String.mk (p.data.drop dotIndex.toNat))
    else
      (p, "")
  else
    (p, "")

/-- The error cases the `except` clauses of `encrypt_file` / `decrypt_file`
(src/main.py lines 120-128 and 157-165) distinguish: `FileNotFoundError`,
`PermissionError`, and any other exception. -/
inductive PyFileError where
  | fileNotFound
  | permissionDenied
  | other (msg : String)

/-- The file-system environment the file helpers run against: what reading
a path returns, and whether writing a given content to a path succeeds. -/
structure FileSys where
  read : String → Except PyFileError String
  write : String → String → Except PyFileError Unit

/-- The output-path resolution of `encrypt_file` / `decrypt_file`
(src/main.py lines 111-113 and 148-150): an explicit output path is used as
given; otherwise `name, ext = os.path.splitext(input_file)` and the output
is `f"{name}{tag}{ext}"` with `tag` either `_encrypted` or `_decrypted`. -/
def resolveOutput (output_file : Option String) (input_file tag : String) : String :=
  match output_file with
  | some o => o
  | none => (splitext input_file).1 ++ tag ++ (splitext input_file).2

/-- `CaesarCipher.encrypt_file` (src/main.py lines 93-128): reads the input
file, encrypts its content, resolves the output path and writes.  Every
exception — a failed read, a `ValueError` from an invalid shift, a failed
write — is caught by the `except` clauses, reported, and turns the result
into `False`; on success the result is `True`.  The second component
records the write performed (path and content); a failed run records no
completed write. -/
def encrypt_file (fs : FileSys) (input_file : String) (shift : Int)
    (output_file : Option String) : Bool × List (String × String) :=
  match fs.read input_file with
  | Except.error _ => (false, [])
  | Except.ok content =>
    match encrypt content shift with
    | Except.error _ => (false, [])
    | Except.ok encrypted_content =>
      let out := resolveOutput output_file input_file "_encrypted"
      match fs.write out encrypted_content with
      | Except.error _ => (false, [])
      | Except.ok _ => (true, [(out, encrypted_content)])

/-- `CaesarCipher.decrypt_file` (src/main.py lines 130-165): same shape as
`encrypt_file` with `decrypt` and the `_decrypted` tag. -/
def decrypt_file (fs : FileSys) (input_file : String) (shift : Int)
    (output_file : Option String) : Bool × List (String × String) :=
  match fs.read input_file with
  | Except.error _ => (false, [])
  | Except.ok content =>
    match decrypt content shift with
    | Except.error _ => (false, [])
    | Except.ok decrypted_content =>
      let out := resolveOutput output_file input_file "_decrypted"
      match fs.write out decrypted_content with
      | Except.error _ => (false, [])
      | Except.ok _ => (true, [(out, decrypted_content)])

/-- A sample file system with a single readable file `doc.txt` holding
`Hello`, every other path missing, and all writes succeeding; used to
instantiate the file-helper theorems on concrete inputs. -/
def sampleFS : FileSys where
  read := fun p =>
    if p = "doc.txt" then Except.ok "Hello" else Except.error PyFileError.fileNotFound
  write := fun _ _ => Except.ok ()

/-! Basic facts about characters and the transform. -/

theorem char_eq_of_toNat_eq {a b : Char} (h : a.toNat = b.toNat) : a = b :=
  Char.eq_of_val_eq (UInt32.ext h)

theorem toNat_ofNat_small (n : Nat) (h : n < 55296) : (Char.ofNat n).toNat = n := by
  have hv : n.isValidChar := Or.inl h
  simp [Char.ofNat, hv, Char.toNat, Char.ofNatAux, UInt32.toNat, BitVec.toNat_ofNatLt]

theorem asciiAlpha_iff (c : Char) : asciiAlpha c = true ↔
    ((65 ≤ c.toNat ∧ c.toNat ≤ 90) ∨ (97 ≤ c.toNat ∧ c.toNat ≤ 122)) := by
  simp [asciiAlpha]

/-- Python's Uppercase and Lowercase properties hold on disjoint sets of
code points: a lowercase character is never uppercase. -/
theorem pyIsUpper_eq_false_of_pyIsLower (c : Char) (h : pyIsLower c = true) :
    pyIsUpper c = false := by
  unfold pyIsLower at h
  unfold pyIsUpper
  have h2 : caseLookup c.toNat caseTable = 2 := by simpa using h
  rw [h2]
  rfl

/-- The classification tables on the ASCII alphabet: `A`-`Z` is alphabetic
and uppercase, `a`-`z` is alphabetic and lowercase. -/
theorem ascii_table_facts : ∀ n : Nat, n < 123 →
    ((65 ≤ n ∧ n ≤ 90) →
      memRanges n alphaRanges = true ∧ caseLookup n caseTable = 1) ∧
    ((97 ≤ n ∧ n ≤ 122) →
      memRanges n alphaRanges = true ∧ caseLookup n caseTable = 2) := by
  decide

theorem pyIsAlpha_of_ascii (c : Char) (h : asciiAlpha c = true) :
    pyIsAlpha c = true := by
  unfold pyIsAlpha
  rcases (asciiAlpha_iff c).mp h with hu | hl
  · exact ((ascii_table_facts c.toNat (by omega)).1 hu).1
  · exact ((ascii_table_facts c.toNat (by omega)).2 hl).1

theorem pyIsUpper_of_ascii_upper (c : Char) (h : 65 ≤ c.toNat ∧ c.toNat ≤ 90) :
    pyIsUpper c = true := by
  unfold pyIsUpper
  rw [((ascii_table_facts c.toNat (by omega)).1 h).2]
  rfl

theorem pyIsUpper_eq_false_of_ascii_lower (c : Char)
    (h : 97 ≤ c.toNat ∧ c.toNat ≤ 122) : pyIsUpper c = false := by
  unfold pyIsUpper
  rw [((ascii_table_facts c.toNat (by omega)).2 h).2]
  rfl

theorem pyIsLower_of_ascii_lower (c : Char)
    (h : 97 ≤ c.toNat ∧ c.toNat ≤ 122) : pyIsLower c = true := by
  unfold pyIsLower
  rw [((ascii_table_facts c.toNat (by omega)).2 h).2]
  rfl

theorem cipherChar_not_alpha (s : Int) (c : Char) (h : pyIsAlpha c = false) :
    cipherChar s c = c := by
  simp [cipherChar, h]

theorem cipherChar_toNat (s : Int) (c : Char) (h : pyIsAlpha c = true) :
    ((cipherChar s c).toNat : Int) =
      ((c.toNat : Int) - (if pyIsUpper c = true then 65 else 97) + s) % 26 +
        (if pyIsUpper c = true then 65 else 97) := by
  have h26 : (0 : Int) < 26 := by norm_num
  cases hu : pyIsUpper c with
  | false =>
    have e0 : 0 ≤ ((c.toNat : Int) - 97 + s) % 26 := Int.emod_nonneg _ (by norm_num)
    have e1 : ((c.toNat : Int) - 97 + s) % 26 < 26 := Int.emod_lt_of_pos _ h26
    simp only [cipherChar, alphabet_size, h, hu, if_pos, if_neg, Bool.false_eq_true,
      if_true, if_false]
    rw [toNat_ofNat_small _ (by omega), Int.toNat_of_nonneg (by omega)]
  | true =>
    have e0 : 0 ≤ ((c.toNat : Int) - 65 + s) % 26 := Int.emod_nonneg _ (by norm_num)
    have e1 : ((c.toNat : Int) - 65 + s) % 26 < 26 := Int.emod_lt_of_pos _ h26
    simp only [cipherChar, alphabet_size, h, hu, if_true]
    rw [toNat_ofNat_small _ (by omega), Int.toNat_of_nonneg (by omega)]

theorem cipherChar_bounds (s : Int) (c : Char) (h : pyIsAlpha c = true) :
    (pyIsUpper c = true → 65 ≤ (cipherChar s c).toNat ∧ (cipherChar s c).toNat ≤ 90) ∧
    (pyIsUpper c = false → 97 ≤ (cipherChar s c).toNat ∧ (cipherChar s c).toNat ≤ 122) := by
  have ht := cipherChar_toNat s c h
  cases hu : pyIsUpper c with
  | false =>
    have e0 : 0 ≤ ((c.toNat : Int) - 97 + s) % 26 := Int.emod_nonneg _ (by norm_num)
    have e1 : ((c.toNat : Int) - 97 + s) % 26 < 26 := Int.emod_lt_of_pos _ (by norm_num)
    rw [hu] at ht
    simp only [Bool.false_eq_true, if_false] at ht
    constructor
    · intro hc; exact absurd hc (by simp)
    · intro _; omega
  | true =>
    have e0 : 0 ≤ ((c.toNat : Int) - 65 + s) % 26 := Int.emod_nonneg _ (by norm_num)
    have e1 : ((c.toNat : Int) - 65 + s) % 26 < 26 := Int.emod_lt_of_pos _ (by norm_num)
    rw [hu] at ht
    simp only [if_true] at ht
    constructor
    · intro _; omega
    · intro hc; exact absurd hc (by simp)

theorem cipherChar_inverse (s : Int) (c : Char) (h : asciiAlpha c = true) :
    cipherChar (-s) (cipherChar s c) = c := by
  have ha : pyIsAlpha c = true := pyIsAlpha_of_ascii c h
  have hb := cipherChar_bounds s c ha
  have ht := cipherChar_toNat s c ha
  rcases (asciiAlpha_iff c).mp h with hu | hl
  · have hup : pyIsUpper c = true := pyIsUpper_of_ascii_upper c hu
    have heb := hb.1 hup
    have ha2 : pyIsAlpha (cipherChar s c) = true :=
      pyIsAlpha_of_ascii _ (by rw [asciiAlpha_iff]; omega)
    have hup2 : pyIsUpper (cipherChar s c) = true :=
      pyIsUpper_of_ascii_upper _ (by omega)
    have ht2 := cipherChar_toNat (-s) (cipherChar s c) ha2
    rw [hup] at ht
    rw [hup2] at ht2
    simp only [if_true] at ht ht2
    apply char_eq_of_toNat_eq
    omega
  · have hup : pyIsUpper c = false := pyIsUpper_eq_false_of_ascii_lower c hl
    have heb := hb.2 hup
    have ha2 : pyIsAlpha (cipherChar s c) = true :=
      pyIsAlpha_of_ascii _ (by rw [asciiAlpha_iff]; omega)
    have hup2 : pyIsUpper (cipherChar s c) = false :=
      pyIsUpper_eq_false_of_ascii_lower _ (by omega)
    have ht2 := cipherChar_toNat (-s) (cipherChar s c) ha2
    rw [hup] at ht
    rw [hup2] at ht2
    simp only [Bool.false_eq_true, if_false] at ht ht2
    apply char_eq_of_toNat_eq
    omega

theorem foldl_push (f : Char → Char) (cs : List Char) (r : String) :
    cs.foldl (fun a c => a.push (f c)) r = String.mk (r.data ++ cs.map f) := by
  induction cs generalizing r with
  | nil => simp
  | cons c cs ih => rw [List.foldl_cons, ih]; simp [String.push]

theorem data_cipherBody (t : String) (s : Int) :
    (cipherBody t s).data = t.data.map (cipherChar s) := by
  unfold cipherBody
  rw [foldl_push]
  rfl

theorem cipher_ok (t : String) (s : Int) (d : Bool)
    (hs : min_shift ≤ s ∧ s ≤ max_shift) :
    cipher t s d = Except.ok (cipherBody t (if d then -s else s)) := by
  unfold cipher
  rw [if_neg (not_not_intro hs)]

theorem string_eq_of_data_eq {a b : String} (h : a.data = b.data) : a = b := by
  cases a
  cases b
  exact congrArg String.mk h

theorem getD_map_cipherChar (s : Int) (l : List Char) (i : Nat) :
    (l.map (cipherChar s)).getD i ' ' = cipherChar s (l.getD i ' ') := by
  rw [List.getD_eq_getElem?_getD, List.getD_eq_getElem?_getD, List.getElem?_map]
  cases h : l[i]? with
  | none => simp [cipherChar_not_alpha s ' ' (by decide)]
  | some a => simp

theorem cipherBody_roundtrip (t : String) (s : Int)
    (ht : ∀ c ∈ t.data, pyIsAlpha c = true → asciiAlpha c = true) :
    cipherBody (cipherBody t s) (-s) = t := by
  apply string_eq_of_data_eq
  rw [data_cipherBody, data_cipherBody, List.map_map]
  have hid : ∀ c ∈ t.data, (cipherChar (-s) ∘ cipherChar s) c = c := by
    intro c hc
    by_cases hA : pyIsAlpha c = true
    · exact cipherChar_inverse s c (ht c hc hA)
    · have hA2 : pyIsAlpha c = false := by
        cases hv : pyIsAlpha c with
        | false => rfl
        | true => exact absurd hv hA
      simp [Function.comp, cipherChar_not_alpha s c hA2, cipherChar_not_alpha (-s) c hA2]
  calc t.data.map (cipherChar (-s) ∘ cipherChar s) = t.data.map id :=
        List.map_congr_left hid
    _ = t.data := List.map_id t.data

theorem decrypt_ok (c : String) (s : Int) (hs : min_shift ≤ s ∧ s ≤ max_shift) :
    decrypt c s = Except.ok (cipherBody c (-s)) := by
  unfold CaesarCipher.decrypt
  rw [cipher_ok c s true hs]
  rfl

theorem bruteLoop_ok (c : String) (shifts : List Int) :
    ∀ acc : List (Int × String),
    (∀ s ∈ shifts, min_shift ≤ s ∧ s ≤ max_shift) →
    bruteLoop c acc shifts =
      Except.ok (acc ++ shifts.map fun s => (s, cipherBody c (-s))) := by
  induction shifts with
  | nil => intro acc _; simp [bruteLoop]
  | cons s rest ih =>
    intro acc hv
    have hs := hv s (by simp)
    have hdec := decrypt_ok c s hs
    rw [show bruteLoop c acc (s :: rest) =
        (match decrypt c s with
          | Except.error e => Except.error e
          | Except.ok d => bruteLoop c (acc ++ [(s, d)]) rest) from rfl,
      hdec]
    show bruteLoop c (acc ++ [(s, cipherBody c (-s))]) rest = _
    rw [ih _ (fun x hx => hv x (by simp [hx]))]
    simp

theorem shiftList_length : shiftList.length = 25 := by
  rw [shiftList, List.length_map, List.length_range]

theorem shiftList_getElem (i : Nat) (hi : i < shiftList.length) :
    shiftList[i] = min_shift + (i : Int) := by
  simp only [shiftList, List.getElem_map, List.getElem_range]

theorem shiftList_valid : ∀ x ∈ shiftList, min_shift ≤ x ∧ x ≤ max_shift := by
  intro x hx
  rw [shiftList, List.mem_map] at hx
  obtain ⟨i, hi, rfl⟩ := hx
  rw [List.mem_range] at hi
  simp only [min_shift, max_shift]
  omega

theorem brute_force_decrypt_eq (c : String) :
    brute_force_decrypt c =
      Except.ok (shiftList.map fun s => (s, cipherBody c (-s))) := by
  unfold brute_force_decrypt
  rw [bruteLoop_ok c shiftList [] shiftList_valid, List.nil_append]

theorem encrypt_file_true_iff (fs : FileSys) (input : String) (s : Int)
    (out : Option String) :
    (encrypt_file fs input s out).1 = true ↔
      ∃ content r, fs.read input = Except.ok content ∧
        encrypt content s = Except.ok r ∧
        fs.write (resolveOutput out input "_encrypted") r = Except.ok () := by
  unfold encrypt_file
  cases hr : fs.read input with
  | error e => simp
  | ok content =>
    cases henc : encrypt content s with
    | error e2 => simp [henc]
    | ok r =>
      cases hw : fs.write (resolveOutput out input "_encrypted") r with
      | error e3 => simp [henc, hw]
      | ok u =>
        cases u
        simp [henc, hw]

theorem decrypt_file_true_iff (fs : FileSys) (input : String) (s : Int)
    (out : Option String) :
    (decrypt_file fs input s out).1 = true ↔
      ∃ content r, fs.read input = Except.ok content ∧
        decrypt content s = Except.ok r ∧
        fs.write (resolveOutput out input "_decrypted") r = Except.ok () := by
  unfold decrypt_file
  cases hr : fs.read input with
  | error e => simp
  | ok content =>
    cases hdec : decrypt content s with
    | error e2 => simp [hdec]
    | ok r =>
      cases hw : fs.write (resolveOutput out input "_decrypted") r with
      | error e3 => simp [hdec, hw]
      | ok u =>
        cases u
        simp [hdec, hw]

theorem encrypt_file_writes (fs : FileSys) (input : String) (s : Int)
    (out : Option String) (h : (encrypt_file fs input s out).1 = true) :
    (encrypt_file fs input s out).2.map Prod.fst =
      [resolveOutput out input "_encrypted"] := by
  obtain ⟨content, r, hr, henc, hw⟩ := (encrypt_file_true_iff fs input s out).mp h
  unfold encrypt_file
  simp [hr, henc, hw]

theorem decrypt_file_writes (fs : FileSys) (input : String) (s : Int)
    (out : Option String) (h : (decrypt_file fs input s out).1 = true) :
    (decrypt_file fs input s out).2.map Prod.fst =
      [resolveOutput out input "_decrypted"] := by
  obtain ⟨content, r, hr, hdec, hw⟩ := (decrypt_file_true_iff fs input s out).mp h
  unfold decrypt_file
  simp [hr, hdec, hw]

end CaesarCipher

open CaesarCipher

/-- C1 (corrected): decrypting the encryption of `t` with the same shift
returns `t` exactly, for every shift in `[min_shift, max_shift]` and every
text all of whose alphabetic characters are ASCII letters.  (The unrestricted
claim fails: see the counterexample `C1_counterexample`.) -/
theorem C1_roundtrip (t : String) (s : Int)
    (hs : min_shift ≤ s ∧ s ≤ max_shift)
    (ht : ∀ c ∈ t.data, pyIsAlpha c = true → asciiAlpha c = true) :
    ∃ e, cipher t s false = Except.ok e ∧ cipher e s true = Except.ok t := by
  refine ⟨cipherBody t s, ?_, ?_⟩
  · rw [cipher_ok t s false hs]
    rfl
  · rw [cipher_ok _ s true hs]
    show Except.ok (cipherBody (cipherBody t s) (-s)) = _
    rw [cipherBody_roundtrip t s ht]

/-- Witness for C1: the round trip at `"Hello World!"` with shift 3. -/
theorem C1_roundtrip_witness :
    ∃ e, cipher "Hello World!" 3 false = Except.ok e ∧
      cipher e 3 true = Except.ok "Hello World!" :=
  C1_roundtrip "Hello World!" 3 (by decide) (by decide)

/-- Counterexample to C1 as stated: the claim quantifies over texts with
non-ASCII characters, but the non-ASCII letter `é` (alphabetic for Python's
`isalpha`) encrypts with shift 1 to the ASCII letter `h`, which decrypts
with shift 1 to `g`, not back to `é`. -/
theorem C1_counterexample :
    cipher "é" 1 false = Except.ok "h" ∧ cipher "h" 1 true = Except.ok "g" ∧
    ("g" : String) ≠ "é" :=
  ⟨rfl, rfl, by decide⟩

/-- C2 (confirmed): for every valid shift and both directions, every
non-alphabetic character of the input appears unchanged at the same
position in the output. -/
theorem C2_nonalpha_unchanged (t : String) (s : Int) (d : Bool)
    (hs : min_shift ≤ s ∧ s ≤ max_shift) :
    ∃ r, cipher t s d = Except.ok r ∧
      ∀ i : Nat, pyIsAlpha (t.data.getD i ' ') = false →
        r.data.getD i ' ' = t.data.getD i ' ' := by
  refine ⟨_, cipher_ok t s d hs, ?_⟩
  intro i hna
  rw [data_cipherBody, getD_map_cipherChar]
  exact cipherChar_not_alpha _ _ hna

/-- Witness for C2: with shift 2 the digit and the punctuation of `"a1!"`
are unchanged at their positions. -/
theorem C2_nonalpha_unchanged_witness :
    ∃ r, cipher "a1!" 2 false = Except.ok r ∧
      ∀ i : Nat, pyIsAlpha (("a1!" : String).data.getD i ' ') = false →
        r.data.getD i ' ' = ("a1!" : String).data.getD i ' ' :=
  C2_nonalpha_unchanged "a1!" 2 false (by decide)

/-- C3 (confirmed): `cipher` fails (raises `ValueError`, modelled as
`Except.error`) exactly when the shift lies outside `[min_shift, max_shift]`,
for every text and both directions; in the error case no output is
produced. -/
theorem C3_invalid_shift (t : String) (s : Int) (d : Bool) :
    (∃ e, cipher t s d = Except.error e) ↔ ¬ (min_shift ≤ s ∧ s ≤ max_shift) := by
  constructor
  · rintro ⟨e, he⟩ hs
    rw [cipher_ok t s d hs] at he
    exact Except.noConfusion he
  · intro hs
    refine ⟨"Shift must be between 1 and 25", ?_⟩
    unfold cipher
    rw [if_pos hs]

/-- Witness for C3: shift 0 and shift 26 both fail. -/
theorem C3_invalid_shift_witness :
    (∃ e, cipher "abc" 0 false = Except.error e) ∧
    (∃ e, cipher "abc" 26 true = Except.error e) :=
  ⟨(C3_invalid_shift "abc" 0 false).mpr (by decide),
   (C3_invalid_shift "abc" 26 true).mpr (by decide)⟩

/-- C5 (confirmed): the spec's concrete test vectors. -/
theorem C5_test_vectors :
    encrypt "Hello World!" 3 = Except.ok "Khoor Zruog!" ∧
    encrypt "Attack at dawn!" 5 = Except.ok "Fyyfhp fy ifbs!" :=
  ⟨rfl, rfl⟩

/-- C6 (confirmed): for every valid shift and both directions, a character
that is uppercase yields an uppercase character at the same position, and a
lowercase character yields a lowercase one. -/
theorem C6_case_preserved (t : String) (s : Int) (d : Bool)
    (hs : min_shift ≤ s ∧ s ≤ max_shift) :
    ∃ r, cipher t s d = Except.ok r ∧ ∀ i : Nat,
      (pyIsUpper (t.data.getD i ' ') = true → pyIsUpper (r.data.getD i ' ') = true) ∧
      (pyIsLower (t.data.getD i ' ') = true → pyIsLower (r.data.getD i ' ') = true) := by
  refine ⟨_, cipher_ok t s d hs, ?_⟩
  intro i
  rw [data_cipherBody, getD_map_cipherChar]
  constructor
  · intro hu
    by_cases ha : pyIsAlpha (t.data.getD i ' ') = true
    · have hb := (cipherChar_bounds (if d then -s else s) _ ha).1 hu
      exact pyIsUpper_of_ascii_upper _ hb
    · have ha2 : pyIsAlpha (t.data.getD i ' ') = false := by
        cases hv : pyIsAlpha (t.data.getD i ' ') with
        | false => rfl
        | true => exact absurd hv ha
      rw [cipherChar_not_alpha _ _ ha2]
      exact hu
  · intro hl
    by_cases ha : pyIsAlpha (t.data.getD i ' ') = true
    · have hu : pyIsUpper (t.data.getD i ' ') = false :=
        pyIsUpper_eq_false_of_pyIsLower _ hl
      have hb := (cipherChar_bounds (if d then -s else s) _ ha).2 hu
      exact pyIsLower_of_ascii_lower _ hb
    · have ha2 : pyIsAlpha (t.data.getD i ' ') = false := by
        cases hv : pyIsAlpha (t.data.getD i ' ') with
        | false => rfl
        | true => exact absurd hv ha
      rw [cipherChar_not_alpha _ _ ha2]
      exact hl

/-- Witness for C6: `"Ab"` keeps its cases under shift 3 encryption. -/
theorem C6_case_preserved_witness :
    ∃ r, cipher "Ab" 3 false = Except.ok r ∧ ∀ i : Nat,
      (pyIsUpper (("Ab" : String).data.getD i ' ') = true →
        pyIsUpper (r.data.getD i ' ') = true) ∧
      (pyIsLower (("Ab" : String).data.getD i ' ') = true →
        pyIsLower (r.data.getD i ' ') = true) :=
  C6_case_preserved "Ab" 3 false (by decide)

/-- C9 (confirmed): for every valid shift and both directions the output has
exactly the length of the input. -/
theorem C9_length_preserved (t : String) (s : Int) (d : Bool)
    (hs : min_shift ≤ s ∧ s ≤ max_shift) :
    ∃ r, cipher t s d = Except.ok r ∧ r.length = t.length := by
  refine ⟨_, cipher_ok t s d hs, ?_⟩
  show (cipherBody t (if d then -s else s)).data.length = t.data.length
  rw [data_cipherBody, List.length_map]

/-- Witness for C9: decryption with shift 4 keeps the length of `"Hi !"`. -/
theorem C9_length_preserved_witness :
    ∃ r, cipher "Hi !" 4 true = Except.ok r ∧ r.length = ("Hi !" : String).length :=
  C9_length_preserved "Hi !" 4 true (by decide)

/-- C10 (confirmed): for every valid shift and both directions, every
alphabetic input character (including non-ASCII letters) maps to a character
of the ASCII alphabet, `A`-`Z` when the input is uppercase and `a`-`z`
otherwise; in particular an alphabetic character outside the ASCII alphabet
is changed, not passed through. -/
theorem C10_alpha_to_ascii (t : String) (s : Int) (d : Bool)
    (hs : min_shift ≤ s ∧ s ≤ max_shift) :
    ∃ r, cipher t s d = Except.ok r ∧ ∀ i : Nat,
      pyIsAlpha (t.data.getD i ' ') = true →
        (pyIsUpper (t.data.getD i ' ') = true →
          65 ≤ (r.data.getD i ' ').toNat ∧ (r.data.getD i ' ').toNat ≤ 90) ∧
        (pyIsUpper (t.data.getD i ' ') = false →
          97 ≤ (r.data.getD i ' ').toNat ∧ (r.data.getD i ' ').toNat ≤ 122) ∧
        (asciiAlpha (t.data.getD i ' ') = false →
          r.data.getD i ' ' ≠ t.data.getD i ' ') := by
  refine ⟨_, cipher_ok t s d hs, ?_⟩
  intro i ha
  rw [data_cipherBody, getD_map_cipherChar]
  have hb := cipherChar_bounds (if d then -s else s) _ ha
  refine ⟨hb.1, hb.2, ?_⟩
  intro hna heq
  have hA : asciiAlpha (cipherChar (if d then -s else s) (t.data.getD i ' ')) = true := by
    rw [asciiAlpha_iff]
    cases hu : pyIsUpper (t.data.getD i ' ') with
    | false => have := hb.2 hu; omega
    | true => have := hb.1 hu; omega
  rw [heq, hna] at hA
  exact Bool.noConfusion hA

/-- Witness for C10: the non-ASCII letter `é` is transformed into an ASCII
lowercase letter by encryption with shift 1. -/
theorem C10_alpha_to_ascii_witness :
    ∃ r, cipher "é" 1 false = Except.ok r ∧ ∀ i : Nat,
      pyIsAlpha (("é" : String).data.getD i ' ') = true →
        (pyIsUpper (("é" : String).data.getD i ' ') = true →
          65 ≤ (r.data.getD i ' ').toNat ∧ (r.data.getD i ' ').toNat ≤ 90) ∧
        (pyIsUpper (("é" : String).data.getD i ' ') = false →
          97 ≤ (r.data.getD i ' ').toNat ∧ (r.data.getD i ' ').toNat ≤ 122) ∧
        (asciiAlpha (("é" : String).data.getD i ' ') = false →
          r.data.getD i ' ' ≠ ("é" : String).data.getD i ' ') :=
  C10_alpha_to_ascii "é" 1 false (by decide)

/-- C4 (corrected): `brute_force_decrypt` returns exactly 25 entries whose
key at index `i` is the shift `min_shift + i` (so the keys are 1..25 in
ascending insertion order) and whose value at that index is the decryption
of the input with that shift; and when the input was produced by encrypting
a plaintext `p` all of whose alphabetic characters are ASCII letters with a
valid shift `s0`, the entry at key `s0` is `p`.  (Without the ASCII
restriction the recovery clause fails: see `C4_counterexample`.) -/
theorem C4_brute_force (c : String) :
    ∃ l, brute_force_decrypt c = Except.ok l ∧ l.length = 25 ∧
      (∀ (i : Nat) (hi : i < l.length),
        l[i].1 = min_shift + (i : Int) ∧
        decrypt c (min_shift + (i : Int)) = Except.ok l[i].2) ∧
      (∀ (p : String) (s0 : Int), min_shift ≤ s0 ∧ s0 ≤ max_shift →
        (∀ ch ∈ p.data, pyIsAlpha ch = true → asciiAlpha ch = true) →
        encrypt p s0 = Except.ok c →
        ∀ (hj : (s0 - 1).toNat < l.length), l[(s0 - 1).toNat].2 = p) := by
  have hlen : (shiftList.map fun s => (s, cipherBody c (-s))).length = 25 := by
    rw [List.length_map, shiftList_length]
  refine ⟨_, brute_force_decrypt_eq c, hlen, ?_, ?_⟩
  · intro i hi
    have hi2 : i < shiftList.length := by
      rw [List.length_map] at hi
      exact hi
    rw [List.getElem_map, shiftList_getElem i hi2]
    exact ⟨rfl, decrypt_ok c _ (shiftList_valid _ (by
      rw [← shiftList_getElem i hi2]
      exact List.getElem_mem hi2))⟩
  · intro p s0 hs0 hp henc hj
    unfold CaesarCipher.encrypt at henc
    rw [cipher_ok p s0 false hs0] at henc
    have hc : cipherBody p s0 = c := Except.ok.inj henc
    have hj2 : (s0 - 1).toNat < shiftList.length := by
      rw [List.length_map] at hj
      exact hj
    rw [List.getElem_map, shiftList_getElem _ hj2]
    have hkey : min_shift + (((s0 - 1).toNat : Nat) : Int) = s0 := by
      simp only [min_shift, max_shift] at hs0 ⊢
      omega
    show cipherBody c (-(min_shift + (((s0 - 1).toNat : Nat) : Int))) = p
    rw [hkey, ← hc, cipherBody_roundtrip p s0 hp]

/-- Witness for C4: brute-forcing `"Khoor"` (which is `encrypt "Hello" 3`)
yields 25 entries and recovers `"Hello"` at key 3 (index 2). -/
theorem C4_brute_force_witness :
    ∃ l, brute_force_decrypt "Khoor" = Except.ok l ∧ l.length = 25 ∧
      ∀ (hj : 2 < l.length), l[2].2 = "Hello" := by
  obtain ⟨l, h1, h2, _h3, h4⟩ := C4_brute_force "Khoor"
  refine ⟨l, h1, h2, ?_⟩
  intro hj
  have := h4 "Hello" 3 (by decide) (by decide) (by rfl)
  have h23 : ((3 : Int) - 1).toNat = 2 := by decide
  rw [h23] at this
  exact this hj

/-- Counterexample to C4 as stated: `"h" = encrypt "é" 1`, yet the entry of
`brute_force_decrypt "h"` at key 1 (index 0) is `"g"`, not the original
plaintext `"é"`. -/
theorem C4_counterexample :
    encrypt "é" 1 = Except.ok "h" ∧
    Except.map (fun l => l.getD 0 (0, "")) (brute_force_decrypt "h") =
      Except.ok ((1 : Int), ("g" : String)) ∧
    ("g" : String) ≠ "é" :=
  ⟨rfl, rfl, by decide⟩

/-- C7 (confirmed): when no output path is supplied and the operation
succeeds, `encrypt_file` writes exactly one file, at the path obtained by
inserting `_encrypted` between the stem and the extension of the input
path, and `decrypt_file` likewise with `_decrypted`. -/
theorem C7_default_output_path (fs : FileSys) (input : String) (s : Int)
    (he : (encrypt_file fs input s none).1 = true)
    (hd : (decrypt_file fs input s none).1 = true) :
    (encrypt_file fs input s none).2.map Prod.fst =
      [(splitext input).1 ++ "_encrypted" ++ (splitext input).2] ∧
    (decrypt_file fs input s none).2.map Prod.fst =
      [(splitext input).1 ++ "_decrypted" ++ (splitext input).2] :=
  ⟨encrypt_file_writes fs input s none he, decrypt_file_writes fs input s none hd⟩

/-- Witness for C7: on the sample file system, encrypting and decrypting
`doc.txt` with shift 3 writes to the derived default paths. -/
theorem C7_default_output_path_witness :
    (encrypt_file sampleFS "doc.txt" 3 none).2.map Prod.fst =
      [(splitext "doc.txt").1 ++ "_encrypted" ++ (splitext "doc.txt").2] ∧
    (decrypt_file sampleFS "doc.txt" 3 none).2.map Prod.fst =
      [(splitext "doc.txt").1 ++ "_decrypted" ++ (splitext "doc.txt").2] :=
  C7_default_output_path sampleFS "doc.txt" 3 rfl rfl

/-- C8 (confirmed): a failed read (missing file, refused access, or any
other failure) makes `encrypt_file` and `decrypt_file` return `False`
(the exception is caught, not propagated); the result is `True` exactly
when the read, the transform and the write all succeed. -/
theorem C8_file_errors (fs : FileSys) (input : String) (s : Int)
    (out : Option String) :
    (∀ e, fs.read input = Except.error e →
      (encrypt_file fs input s out).1 = false ∧
      (decrypt_file fs input s out).1 = false) ∧
    ((encrypt_file fs input s out).1 = true ↔
      ∃ content r, fs.read input = Except.ok content ∧
        encrypt content s = Except.ok r ∧
        fs.write (resolveOutput out input "_encrypted") r = Except.ok ()) ∧
    ((decrypt_file fs input s out).1 = true ↔
      ∃ content r, fs.read input = Except.ok content ∧
        decrypt content s = Except.ok r ∧
        fs.write (resolveOutput out input "_decrypted") r = Except.ok ()) := by
  refine ⟨?_, encrypt_file_true_iff fs input s out, decrypt_file_true_iff fs input s out⟩
  intro e hre
  constructor
  · cases hb : (encrypt_file fs input s out).1 with
    | false => rfl
    | true =>
      obtain ⟨content, r, hc, -, -⟩ := (encrypt_file_true_iff fs input s out).mp hb
      rw [hre] at hc
      exact Except.noConfusion hc
  · cases hb : (decrypt_file fs input s out).1 with
    | false => rfl
    | true =>
      obtain ⟨content, r, hc, -, -⟩ := (decrypt_file_true_iff fs input s out).mp hb
      rw [hre] at hc
      exact Except.noConfusion hc

/-- Witness for C8: on the sample file system, a missing input file makes
both helpers fail, and a readable one makes `encrypt_file` succeed. -/
theorem C8_file_errors_witness :
    (encrypt_file sampleFS "missing.txt" 3 none).1 = false ∧
    (decrypt_file sampleFS "missing.txt" 3 none).1 = false ∧
    (encrypt_file sampleFS "doc.txt" 3 none).1 = true := by
  obtain ⟨h1, -, -⟩ := C8_file_errors sampleFS "missing.txt" 3 none
  obtain ⟨he, hd⟩ := h1 PyFileError.fileNotFound rfl
  refine ⟨he, hd, ?_⟩
  exact (C8_file_errors sampleFS "doc.txt" 3 none).2.1.mpr
    ⟨"Hello", "Khoor", rfl, rfl, rfl⟩
